import Mathlib

/-!
Shallow embedding of the cocoon-cloud-sdk session-lifecycle and
project-synchronization core, with theorems settling the frozen claims.

Sources embedded:
  * src/src/lib/cocoon-api.ts   (CocoonAPI: setupAPIAccess, refreshAPIAccess,
    closeAPIAccess, request)
  * src/unnamed/part_000        (Project: init, refresh, updateZip, updateURL,
    updateRepository, updateConfigXml, getConfigXML, isCompiling,
    assignSigningKey, removeSigningKey, refreshUntilCompleted)

External collaborators that are part of this repository but absent from src
(MemoryCredentialStorage, the Platform and Status enumerations, Compilation,
SigningKey, IProjectData, and the XMLSugar document capability) are modelled
from the specification; each such definition says so in its doc comment.

Asynchronous effects are embedded as explicit state passing: a remote call
outcome is a parameter, and each operation returns a trace recording the new
state, how many remote calls were issued, and the error (if any) it raised.
Time is a discrete clock passed explicitly; the polling sleep advances it.
-/

/-- Modelled from the spec: the credential-storage capability of section 9
(getAccessToken, setAccessToken, getRefreshToken, setRefreshToken, expireDate,
logout), standing in for MemoryCredentialStorage / CookieCredentialStorage,
which are not under src. Cleared slots are `none` (JS null). -/
structure CredentialStorage where
  accessToken : Option String
  refreshToken : Option String
  expireDate : Option Int
deriving DecidableEq

/-- Modelled from the spec: logout clears the stored token data (section 3:
"destroyed by closeAccess (logout clears storage)"). The storage object
itself survives; only its slots are cleared. -/
def CredentialStorage.logout (_c : CredentialStorage) : CredentialStorage :=
  { accessToken := none, refreshToken := none, expireDate := none }

/-- The static state of the CocoonAPI class: the `_credentials` field, which
is `none` until `setupAPIAccess` first runs (cocoon-api.ts line 119). -/
structure APIState where
  credentials : Option CredentialStorage
deriving DecidableEq

/-- Embeds CocoonAPI.setupAPIAccess (cocoon-api.ts lines 38-45): installs a
fresh credential storage and sets both tokens. The expiry computation
(`now + expiration`) is modelled from the spec ("sets access+refresh tokens
and computed expiry", section 4.1), since the storage backend is not under
src; when no expiration is given the expiry slot stays empty. The apiURL
parameter only mutates the URL table and is omitted. -/
def CocoonAPI.setupAPIAccess (accessToken : String) (refreshToken : String)
    (expiration : Option Int) (now : Int) : APIState :=
  { credentials := some
      { accessToken := some accessToken
        refreshToken := some refreshToken
        expireDate := expiration.map (fun e => now + e) } }

/-- The response body of the authentication-refresh endpoint, as read by
CocoonAPI.refreshAPIAccess (cocoon-api.ts line 58). -/
structure RefreshResponse where
  access_token : String
  refresh_token : String
  expires_in : Int
deriving DecidableEq

/-- Embeds CocoonAPI.refreshAPIAccess (cocoon-api.ts lines 50-61): exchanges
the refresh token at the remote endpoint (the response body is the `resp`
parameter) and installs the returned pair via setupAPIAccess. -/
def CocoonAPI.refreshAPIAccess (_st : APIState) (resp : RefreshResponse)
    (now : Int) : APIState :=
  CocoonAPI.setupAPIAccess resp.access_token resp.refresh_token
    (some resp.expires_in) now

/-- Embeds CocoonAPI.closeAPIAccess (cocoon-api.ts lines 66-68): calls
logout() on the stored credential storage. Note it does not unset the static
`_credentials` field itself; the storage object remains installed. -/
def CocoonAPI.closeAPIAccess (st : APIState) : APIState :=
  { credentials := st.credentials.map CredentialStorage.logout }

/-- Embeds CocoonAPI.checkAPIAccess (cocoon-api.ts lines 23-29): true iff a
storage exists and holds a truthy access token. -/
def CocoonAPI.checkAPIAccess (st : APIState) : Bool :=
  match st.credentials with
  | some c => (match c.accessToken with | some t => t ≠ "" | none => false)
  | none => false

/-- The JS comparison `expireDate > new Date()` at cocoon-api.ts line 105:
when expireDate is null (after logout) the comparison coerces to false. -/
def CredentialStorage.expireAfter (c : CredentialStorage) (now : Int) : Bool :=
  match c.expireDate with
  | some e => now < e
  | none => false

/-- The string `"Bearer " + getAccessToken()` built at cocoon-api.ts line
110; JS string concatenation renders a null token as "null". -/
def CredentialStorage.bearer (c : CredentialStorage) : String :=
  "Bearer " ++ (match c.accessToken with | some t => t | none => "null")

/-- The error thrown at cocoon-api.ts line 112. -/
def unauthenticatedMsg : String := "API access has not been set up"

/-- Trace of one CocoonAPI.request call: the resulting static state, the
number of calls to the refresh endpoint, whether the outbound main request
was issued (0 or 1), the Authorization header attached to it, and the error
raised before issuing, if any. -/
structure RequestTrace where
  finalState : APIState
  refreshCalls : Nat
  mainCalls : Nat
  authHeader : Option String
  error : Option String
deriving DecidableEq

/-- Embeds CocoonAPI.request (cocoon-api.ts lines 99-117). With
addCredentials: if no storage was ever installed it throws the
unauthenticated error before any network call; otherwise, if
`expireDate > new Date()` holds it awaits refreshAPIAccess (whose endpoint
response is the `resp` parameter) and then attaches the bearer header read
from the (possibly refreshed) storage, before issuing the outbound call. -/
def CocoonAPI.request (st : APIState) (addCredentials : Bool) (now : Int)
    (resp : RefreshResponse) : RequestTrace :=
  if addCredentials then
    match st.credentials with
    | some creds =>
      if creds.expireAfter now then
        let st2 := CocoonAPI.refreshAPIAccess st resp now
        { finalState := st2
          refreshCalls := 1
          mainCalls := 1
          authHeader := some (match st2.credentials with
            | some c2 => c2.bearer
            | none => "Bearer null")
          error := none }
      else
        { finalState := st
          refreshCalls := 0
          mainCalls := 1
          authHeader := some creds.bearer
          error := none }
    | none =>
      { finalState := st
        refreshCalls := 0
        mainCalls := 0
        authHeader := none
        error := some unauthenticatedMsg }
  else
    { finalState := st
      refreshCalls := 0
      mainCalls := 1
      authHeader := none
      error := none }

/-- Modelled from the spec: the fixed closed platform enumeration of
section 6 (the e-platform enum is not under src). -/
inductive Platform where
  | Android
  | IOS
  | Ubuntu
  | Windows
deriving DecidableEq

/-- Enumeration of the closed platform set, used where the source iterates
the keys of a platform-indexed object. -/
def Platform.all : List Platform :=
  [Platform.Android, Platform.IOS, Platform.Ubuntu, Platform.Windows]

/-- The string value of a platform enum member, as concatenated into error
messages. Modelled from the spec (section 6 closed enumeration). -/
def Platform.str : Platform → String
  | Platform.Android => "android"
  | Platform.IOS => "ios"
  | Platform.Ubuntu => "ubuntu"
  | Platform.Windows => "windows"

/-- Modelled from the spec: the compilation status enumeration of section 6
(the e-status enum is not under src): Queued, Waiting, Compiling, Completed,
Error. -/
inductive Status where
  | Queued
  | Waiting
  | Compiling
  | Completed
  | Error
deriving DecidableEq

/-- Modelled from the spec: IProjectData, the full remote project payload
(not under src), carrying the fields Project.init reads: id, title, package,
version, source, origin, dates, error, the targeted platform list, the
per-platform signing-key data, and the per-platform compilation status
consumed by the Compilation constructor. -/
structure ProjectData where
  id : String
  title : String
  package : String
  version : String
  source : String
  origin : List (String × String)
  date_created : Int
  date_updated : Int
  date_compiled : Int
  error : List (String × String)
  platforms : List Platform
  keyData : Platform → Option String
  statusOf : Platform → Status

/-- Modelled from the spec: CompilationSnapshot (section 3): platform and
status, derived from the payload by the Compilation constructor invoked at
part_000 line 338. -/
structure Compilation where
  platform : Platform
  status : Status
deriving DecidableEq

/-- Modelled from the spec: the Compilation constructor
`new Compilation(projectData, platform)` extracts that platform's status
from the payload. -/
def Compilation.ofData (pd : ProjectData) (p : Platform) : Compilation :=
  { platform := p, status := pd.statusOf p }

/-- Modelled from the spec: SigningKey (section 3): id and platform, built
at part_000 line 342 as `new SigningKey(projectData.keys[platform],
platform)`. -/
structure SigningKey where
  id : String
  platform : Platform
deriving DecidableEq

/-- Modelled from the spec: the external XMLSugar document capability
(section 4.2). `new XMLSugar(text)` parses a text; the document remembers
the exact text it was parsed from. -/
structure XMLSugar where
  source : String
deriving DecidableEq

/-- Modelled from the spec: serialization of a parsed document back to text
is the external format's own canonicalization of the text the document was
parsed from (section 4.2: the core never parses the format itself, so the
canonicalization function is a parameter). -/
def XMLSugar.xml (canon : String → String) (d : XMLSugar) : String :=
  canon d.source

/-- The state of one Project instance (part_000 lines 90-105): scalar
fields, the platform-indexed compilation and signing-key maps, and the
cached ConfigDocument (`configXML`, null when absent). -/
structure Project where
  _id : String
  _name : String
  _bundleID : String
  _version : String
  _origin : List (String × String)
  _dateCompiled : Int
  _dateCreated : Int
  _dateUpdated : Int
  _compilations : Platform → Option Compilation
  _errors : List (String × String)
  _keys : Platform → Option SigningKey
  _sourceURL : String
  configXML : Option XMLSugar

/-- Embeds Project.init (part_000 lines 321-344): assigns every field of the
instance from the payload, resets the cached ConfigDocument to null, and
rebuilds the compilations map from `projectData.platforms` and the keys map
from `projectData.keys`. Mirroring the in-place mutation, it maps the prior
state to the new one; every field is assigned. -/
def Project.init (st : Project) (pd : ProjectData) : Project :=
  { st with
    _id := pd.id
    _name := pd.title
    _bundleID := pd.package
    _version := pd.version
    _sourceURL := pd.source
    _origin := pd.origin
    _dateCreated := pd.date_created
    _dateUpdated := pd.date_updated
    _dateCompiled := pd.date_compiled
    _errors := pd.error
    configXML := none
    _compilations := fun p =>
      if p ∈ pd.platforms then some (Compilation.ofData pd p) else none
    _keys := fun p => (pd.keyData p).map (fun kid => SigningKey.mk kid p) }

/-- An uninitialized instance, standing for the fresh object the constructor
(part_000 lines 107-109) runs init on. -/
def Project.blank : Project :=
  { _id := ""
    _name := ""
    _bundleID := ""
    _version := ""
    _origin := []
    _dateCompiled := 0
    _dateCreated := 0
    _dateUpdated := 0
    _compilations := fun _ => none
    _errors := []
    _keys := fun _ => none
    _sourceURL := ""
    configXML := none }

/-- Embeds the Project constructor (part_000 lines 107-109): runs init on a
fresh instance. -/
def Project.construct (pd : ProjectData) : Project :=
  Project.blank.init pd

/-- Embeds Project.refresh (part_000 lines 250-252): fetches the full remote
payload (the `pd` parameter is what ProjectAPI.getUnprocessed returned) and
runs init with it. -/
def Project.refresh (st : Project) (pd : ProjectData) : Project :=
  st.init pd

/-- Embeds Project.updateZip (part_000 lines 197-199): the remote zip-update
call returns the new full payload `pd`; init runs with it. -/
def Project.updateZip (st : Project) (_file : String) (pd : ProjectData) :
    Project :=
  st.init pd

/-- Embeds Project.updateURL (part_000 lines 206-208). -/
def Project.updateURL (st : Project) (_url : String) (pd : ProjectData) :
    Project :=
  st.init pd

/-- Embeds Project.updateRepository (part_000 lines 216-218). -/
def Project.updateRepository (st : Project) (_repoUrl : String)
    (pd : ProjectData) : Project :=
  st.init pd

/-- Embeds Project.updateConfigXml (part_000 lines 225-228): the remote
config replacement returns the new full payload `pd`; init runs with it and
then the cached ConfigDocument is replaced with one parsed from the exact
text just written. -/
def Project.updateConfigXml (st : Project) (xmlText : String)
    (pd : ProjectData) : Project :=
  { st.init pd with configXML := some (XMLSugar.mk xmlText) }

/-- Embeds Project.getConfigXML (part_000 lines 144-152): returns the cached
document when present; otherwise fetches the raw text from the remote (the
`remoteXml` parameter is what ProjectAPI.getConfigXml returned), parses and
caches it. Returns the document together with the updated instance state. -/
def Project.getConfigXML (st : Project) (remoteXml : String) :
    XMLSugar × Project :=
  match st.configXML with
  | some d => (d, st)
  | none =>
    let d := XMLSugar.mk remoteXml
    (d, { st with configXML := some d })

/-- Embeds Project.isCompiling (part_000 lines 127-138): iterates the
platform-indexed compilations map and returns true on the first entry whose
status is Compiling or Waiting; absent platforms contribute nothing. -/
def Project.isCompiling (st : Project) : Bool :=
  Platform.all.any (fun p =>
    match st._compilations p with
    | some c => c.status = Status.Compiling ∨ c.status = Status.Waiting
    | none => false)

/-- Trace of one signing-key operation: the resulting instance state, the
number of remote calls issued, and the error raised, if any. -/
structure OpResult where
  state : Project
  remoteCalls : Nat
  error : Option String

/-- Embeds Project.assignSigningKey (part_000 lines 294-297): awaits the
remote association call (its outcome is `remoteOk`; on failure the rejection
propagates and the local update never runs), then sets the key's platform
slot in the local map. -/
def Project.assignSigningKey (st : Project) (k : SigningKey)
    (remoteOk : Bool) : OpResult :=
  if remoteOk then
    { state := { st with
        _keys := fun q => if q = k.platform then some k else st._keys q }
      remoteCalls := 1
      error := none }
  else
    { state := st, remoteCalls := 1, error := some "remote call failed" }

/-- Embeds Project.removeSigningKey (part_000 lines 304-311): when the
platform has a key assigned, awaits the remote removal (outcome `remoteOk`)
and on success clears the slot; otherwise throws the descriptive error
without any remote call. -/
def Project.removeSigningKey (st : Project) (p : Platform)
    (remoteOk : Bool) : OpResult :=
  match st._keys p with
  | some _ =>
    if remoteOk then
      { state := { st with
          _keys := fun q => if q = p then none else st._keys q }
        remoteCalls := 1
        error := none }
    else
      { state := st, remoteCalls := 1, error := some "remote call failed" }
  | none =>
    { state := st
      remoteCalls := 0
      error := some ("There is no signing key for the " ++ p.str ++
        " platform in the project " ++ st._id) }

/-- The timeout error thrown at part_000 line 284 (message paraphrased: the
source text reads "It was not possible to compile the project in the time
limit frame", with an elided contraction). -/
def timeoutMsg : String :=
  "It was not possible to compile the project in the time limit frame."

/-- The polling loop of Project.refreshUntilCompleted (part_000 lines
277-281). State is (instance, clock, fetch index); each iteration sleeps
`interval` (advancing the clock; refresh and callback are modelled as
instantaneous) and refreshes from the next payload of the `snaps` stream.
Returns the instance and clock at loop exit; `none` when fuel runs out. -/
def pollLoop (snaps : Nat → ProjectData) (interval limitTime : Nat) :
    Nat → Project → Nat → Nat → Option (Project × Nat)
  | 0, _, _, _ => none
  | fuel + 1, proj, time, idx =>
    if proj.isCompiling ∧ time < limitTime then
      pollLoop snaps interval limitTime fuel
        (proj.refresh (snaps idx)) (time + interval) (idx + 1)
    else
      some (proj, time)

/-- Embeds Project.refreshUntilCompleted (part_000 lines 269-286): computes
the deadline `now + maxWaitTime`, refreshes once, runs the polling loop, and
afterwards throws the timeout error exactly when the clock is still strictly
below the deadline. The callback is fire-and-forget and does not affect
control flow, so it is not modelled; the i-th refresh receives payload
`snaps i`. The result pairs the final instance with the exit clock. -/
def Project.refreshUntilCompleted (st : Project) (snaps : Nat → ProjectData)
    (now interval maxWaitTime fuel : Nat) :
    Option (Except String (Project × Nat)) :=
  match pollLoop snaps interval (now + maxWaitTime) fuel
    (st.refresh (snaps 0)) now 1 with
  | none => none
  | some (p, t) =>
    some (if t < now + maxWaitTime then Except.error timeoutMsg
      else Except.ok (p, t))

/-- A refresh-endpoint response used by the concrete evaluations. -/
def respW : RefreshResponse :=
  { access_token := "newTok", refresh_token := "newRef", expires_in := 3600 }

/-- A credential state whose expiry instant (50) is already past at the
evaluation time 100. -/
def credsStale : CredentialStorage :=
  { accessToken := some "oldTok"
    refreshToken := some "refTok"
    expireDate := some 50 }

/-- A credential state whose expiry instant (200) has not yet passed at the
evaluation time 100. -/
def credsFresh : CredentialStorage :=
  { accessToken := some "oldTok"
    refreshToken := some "refTok"
    expireDate := some 200 }

/-- Claim C1: for an expired credential state, the next authorized request
should trigger exactly one refresh before issuing and attach the refreshed
token; for an unexpired state, no refresh and the current token. The source
does the opposite: the condition at cocoon-api.ts line 105 reads
`expireDate > new Date()`, so at time 100 the already-expired state (expiry
50) issues zero refresh calls and sends the stale token, while the unexpired
state (expiry 200) triggers a refresh and sends the refreshed token. This
theorem evaluates the embedded request at both states, exhibiting the
inversion; it contradicts the source's own log line ("Access credentials
expired.") printed in the branch taken only when credentials are not
expired. -/
theorem request_refresh_condition_inverted :
    (CocoonAPI.request { credentials := some credsStale } true 100
      respW).refreshCalls = 0 ∧
    (CocoonAPI.request { credentials := some credsStale } true 100
      respW).authHeader = some "Bearer oldTok" ∧
    (CocoonAPI.request { credentials := some credsFresh } true 100
      respW).refreshCalls = 1 ∧
    (CocoonAPI.request { credentials := some credsFresh } true 100
      respW).authHeader = some "Bearer newTok" :=
  ⟨rfl, rfl, rfl, rfl⟩

/-- Claim C8: with no credential store ever installed, an authorized request
fails with the unauthenticated error synchronously: zero refresh calls, the
outbound call is never issued, no header is attached, and the state is
untouched. -/
theorem request_unauthenticated_before_network (now : Int)
    (resp : RefreshResponse) :
    CocoonAPI.request { credentials := none } true now resp =
      { finalState := { credentials := none }
        refreshCalls := 0
        mainCalls := 0
        authHeader := none
        error := some unauthenticatedMsg } :=
  rfl

/-- Claim C3 counterexample: after setupAPIAccess then closeAPIAccess, an
authorized request does not fail with the unauthenticated error (it raises
no error at all and issues the outbound call), refuting the claim that every
authorized request after closeAccess fails. -/
theorem request_after_close_does_not_fail :
    (CocoonAPI.request
      (CocoonAPI.closeAPIAccess
        (CocoonAPI.setupAPIAccess "tok" "ref" (some 3600) 0)) true 50
      respW).error = none ∧
    (CocoonAPI.request
      (CocoonAPI.closeAPIAccess
        (CocoonAPI.setupAPIAccess "tok" "ref" (some 3600) 0)) true 50
      respW).mainCalls = 1 :=
  ⟨rfl, rfl⟩

/-- Claim C3 as amended: closeAPIAccess only clears the slots of the stored
credential storage; the storage object itself remains installed, so a
subsequent authorized request does not fail with the unauthenticated error:
it proceeds to the network, with no refresh (the cleared expiry compares
false) and a bearer header built from the cleared token ("Bearer null").
The unauthenticated error is raised only when no store was ever set up. -/
theorem request_after_close_proceeds (st : APIState)
    (c : CredentialStorage) (h : st.credentials = some c) (now : Int)
    (resp : RefreshResponse) :
    (CocoonAPI.request (CocoonAPI.closeAPIAccess st) true now
      resp).error = none ∧
    (CocoonAPI.request (CocoonAPI.closeAPIAccess st) true now
      resp).authHeader = some "Bearer null" ∧
    (CocoonAPI.request (CocoonAPI.closeAPIAccess st) true now
      resp).refreshCalls = 0 ∧
    (CocoonAPI.request (CocoonAPI.closeAPIAccess st) true now
      resp).mainCalls = 1 := by
  simp [CocoonAPI.request, CocoonAPI.closeAPIAccess, h,
    CredentialStorage.logout, CredentialStorage.expireAfter,
    CredentialStorage.bearer]

/-- Witness for the amended C3 theorem at a concrete session. -/
theorem request_after_close_proceeds_witness :
    (CocoonAPI.request
      (CocoonAPI.closeAPIAccess
        (CocoonAPI.setupAPIAccess "tok" "ref" (some 3600) 0)) true 99
      respW).error = none ∧
    (CocoonAPI.request
      (CocoonAPI.closeAPIAccess
        (CocoonAPI.setupAPIAccess "tok" "ref" (some 3600) 0)) true 99
      respW).authHeader = some "Bearer null" ∧
    (CocoonAPI.request
      (CocoonAPI.closeAPIAccess
        (CocoonAPI.setupAPIAccess "tok" "ref" (some 3600) 0)) true 99
      respW).refreshCalls = 0 ∧
    (CocoonAPI.request
      (CocoonAPI.closeAPIAccess
        (CocoonAPI.setupAPIAccess "tok" "ref" (some 3600) 0)) true 99
      respW).mainCalls = 1 :=
  request_after_close_proceeds
    (CocoonAPI.setupAPIAccess "tok" "ref" (some 3600) 0)
    { accessToken := some "tok"
      refreshToken := some "ref"
      expireDate := some (0 + 3600) } rfl 99 respW

/-- A concrete remote payload: one targeted platform (Android) whose
compilation is Waiting, and no signing keys. -/
def pdW : ProjectData :=
  { id := "p1"
    title := "demo"
    package := "io.cocoon.demo"
    version := "1.0.0"
    source := "https://example.com/src.zip"
    origin := [("repo", "https://example.com/repo.git")]
    date_created := 1000
    date_updated := 2000
    date_compiled := 1500
    error := []
    platforms := [Platform.Android]
    keyData := fun _ => none
    statusOf := fun _ => Status.Waiting }

/-- A concrete remote payload carrying a signing key for Android and a
Completed compilation. -/
def pdK : ProjectData :=
  { id := "p2"
    title := "demo2"
    package := "io.cocoon.demo2"
    version := "2.0.0"
    source := "https://example.com/src2.zip"
    origin := []
    date_created := 3000
    date_updated := 4000
    date_compiled := 3500
    error := []
    platforms := [Platform.Android]
    keyData := fun p => if p = Platform.Android then some "key1" else none
    statusOf := fun _ => Status.Completed }

/-- Claim C4: refresh is a wholesale snapshot replacement. The refreshed
state is independent of the pre-refresh state (two arbitrary prior states
refresh to the same instance, equal to one constructed directly from the
payload), and every field equals the value derived from the just-fetched
payload. -/
theorem refresh_replaces_wholesale (st st2 : Project) (pd : ProjectData) :
    st.refresh pd = st2.refresh pd ∧
    st.refresh pd = Project.construct pd ∧
    (st.refresh pd)._id = pd.id ∧
    (st.refresh pd)._name = pd.title ∧
    (st.refresh pd)._bundleID = pd.package ∧
    (st.refresh pd)._version = pd.version ∧
    (st.refresh pd)._sourceURL = pd.source ∧
    (st.refresh pd)._origin = pd.origin ∧
    (st.refresh pd)._dateCreated = pd.date_created ∧
    (st.refresh pd)._dateUpdated = pd.date_updated ∧
    (st.refresh pd)._dateCompiled = pd.date_compiled ∧
    (st.refresh pd)._errors = pd.error ∧
    (st.refresh pd)._compilations = (fun p =>
      if p ∈ pd.platforms then some (Compilation.ofData pd p) else none) ∧
    (st.refresh pd)._keys = (fun p =>
      (pd.keyData p).map (fun kid => SigningKey.mk kid p)) :=
  ⟨rfl, rfl, rfl, rfl, rfl, rfl, rfl, rfl, rfl, rfl, rfl, rfl, rfl, rfl⟩

/-- Claim C9: isCompiling is true iff some entry of the cached compilations
map has status Compiling or Waiting; in particular it is false when the map
is empty. It is a pure function of the instance state (its only inputs),
consulting no remote. -/
theorem isCompiling_iff (st : Project) :
    (st.isCompiling = true ↔
      ∃ p c, st._compilations p = some c ∧
        (c.status = Status.Compiling ∨ c.status = Status.Waiting)) ∧
    ((∀ p, st._compilations p = none) → st.isCompiling = false) := by
  have hmain : st.isCompiling = true ↔
      ∃ p c, st._compilations p = some c ∧
        (c.status = Status.Compiling ∨ c.status = Status.Waiting) := by
    unfold Project.isCompiling
    rw [List.any_eq_true]
    constructor
    · rintro ⟨p, -, hp⟩
      cases hcp : st._compilations p with
      | none => rw [hcp] at hp; exact absurd hp (by simp)
      | some c =>
        rw [hcp] at hp
        exact ⟨p, c, hcp, of_decide_eq_true hp⟩
    · rintro ⟨p, c, hc, hs⟩
      refine ⟨p, by cases p <;> decide, ?_⟩
      rw [hc]
      exact decide_eq_true hs
  refine ⟨hmain, fun h => ?_⟩
  cases hb : st.isCompiling with
  | false => rfl
  | true =>
    obtain ⟨p, c, hc, -⟩ := hmain.1 hb
    rw [h p] at hc
    exact absurd hc (by simp)

/-- Witness for C9: the uninitialized instance has an empty compilations
map, and isCompiling evaluates to false on it. -/
theorem isCompiling_iff_witness : Project.blank.isCompiling = false :=
  (isCompiling_iff Project.blank).2 (fun _ => rfl)

/-- Claim C5: removeSigningKey on a platform with no assigned key fails
immediately with the descriptive error, issues zero remote calls and leaves
the state unchanged; on a platform with a key it issues the remote removal
and, on its success, clears exactly that platform's slot. -/
theorem removeSigningKey_spec (st : Project) (p : Platform)
    (remoteOk : Bool) :
    (st._keys p = none →
      (st.removeSigningKey p remoteOk).error =
        some ("There is no signing key for the " ++ p.str ++
          " platform in the project " ++ st._id) ∧
      (st.removeSigningKey p remoteOk).remoteCalls = 0 ∧
      (st.removeSigningKey p remoteOk).state = st) ∧
    (∀ k, st._keys p = some k →
      (st.removeSigningKey p remoteOk).remoteCalls = 1 ∧
      (remoteOk = true →
        (st.removeSigningKey p remoteOk).error = none ∧
        (st.removeSigningKey p remoteOk).state._keys p = none ∧
        (∀ q, q ≠ p →
          (st.removeSigningKey p remoteOk).state._keys q = st._keys q))) := by
  constructor
  · intro h
    simp [Project.removeSigningKey, h]
  · intro k h
    cases remoteOk with
    | false => simp [Project.removeSigningKey, h]
    | true =>
      refine ⟨by simp [Project.removeSigningKey, h], fun _ => ?_⟩
      refine ⟨by simp [Project.removeSigningKey, h],
        by simp [Project.removeSigningKey, h], fun q hq => ?_⟩
      simp [Project.removeSigningKey, h, hq]

/-- Witness for C5 at concrete instances: a keyless platform yields zero
remote calls and an unchanged state; a platform holding a key yields one
remote call and a cleared slot. -/
theorem removeSigningKey_spec_witness :
    ((Project.construct pdW).removeSigningKey Platform.IOS
      true).remoteCalls = 0 ∧
    ((Project.construct pdW).removeSigningKey Platform.IOS true).state =
      Project.construct pdW ∧
    ((Project.construct pdK).removeSigningKey Platform.Android
      true).remoteCalls = 1 ∧
    ((Project.construct pdK).removeSigningKey Platform.Android
      true).state._keys Platform.Android = none :=
  ⟨((removeSigningKey_spec (Project.construct pdW) Platform.IOS
      true).1 rfl).2.1,
   ((removeSigningKey_spec (Project.construct pdW) Platform.IOS
      true).1 rfl).2.2,
   ((removeSigningKey_spec (Project.construct pdK) Platform.Android
      true).2 (SigningKey.mk "key1" Platform.Android) rfl).1,
   (((removeSigningKey_spec (Project.construct pdK) Platform.Android
      true).2 (SigningKey.mk "key1" Platform.Android) rfl).2 rfl).2.1⟩

/-- Claim C6: assignSigningKey performs the remote association first; on
success the key's platform slot holds the assigned key (overwriting any
prior one) and no error is raised; on remote failure the error propagates
and the local map (indeed the whole state) is unchanged. In both cases
exactly one remote call is issued. -/
theorem assignSigningKey_spec (st : Project) (k : SigningKey)
    (remoteOk : Bool) :
    (remoteOk = true →
      (st.assignSigningKey k remoteOk).remoteCalls = 1 ∧
      (st.assignSigningKey k remoteOk).error = none ∧
      (st.assignSigningKey k remoteOk).state._keys k.platform = some k ∧
      (∀ q, q ≠ k.platform →
        (st.assignSigningKey k remoteOk).state._keys q = st._keys q)) ∧
    (remoteOk = false →
      (st.assignSigningKey k remoteOk).remoteCalls = 1 ∧
      (st.assignSigningKey k remoteOk).error.isSome = true ∧
      (st.assignSigningKey k remoteOk).state = st) := by
  constructor
  · intro h
    subst h
    refine ⟨rfl, rfl, by simp [Project.assignSigningKey], fun q hq => ?_⟩
    simp [Project.assignSigningKey, hq]
  · intro h
    subst h
    exact ⟨rfl, rfl, rfl⟩

/-- Witness for C6 at a concrete instance: the success path stores the key,
the failure path leaves the state unchanged. -/
theorem assignSigningKey_spec_witness :
    ((Project.construct pdW).assignSigningKey
      (SigningKey.mk "k9" Platform.Android) true).state._keys
      Platform.Android = some (SigningKey.mk "k9" Platform.Android) ∧
    ((Project.construct pdW).assignSigningKey
      (SigningKey.mk "k9" Platform.Android) false).state =
      Project.construct pdW :=
  ⟨((assignSigningKey_spec (Project.construct pdW)
      (SigningKey.mk "k9" Platform.Android) true).1 rfl).2.2.1,
   ((assignSigningKey_spec (Project.construct pdW)
      (SigningKey.mk "k9" Platform.Android) false).2 rfl).2.2⟩

/-- Claim C7: after updateConfigXml with a given text, the cached document
is the one parsed from exactly that text (whatever was cached before, and
whatever the remote would now return, play no part), so a subsequent
getConfigXML yields a document whose serialization is the external format's
own canonicalization of that text. -/
theorem updateConfigXml_roundTrip (st : Project) (xmlText : String)
    (pd : ProjectData) (remoteXml : String) (canon : String → String) :
    ((st.updateConfigXml xmlText pd).getConfigXML remoteXml).1 =
      XMLSugar.mk xmlText ∧
    XMLSugar.xml canon
      ((st.updateConfigXml xmlText pd).getConfigXML remoteXml).1 =
      canon xmlText :=
  ⟨rfl, rfl⟩

/-- Claim C10: every operation that rebuilds the snapshot through init (the
constructor, refresh, updateZip, updateURL, updateRepository and
updateConfigXml) resets the cached ConfigDocument; after refresh the next
getConfigXML refetches from the remote text and caches the result, while
updateConfigXml alone ends with a cache repopulated from the text it just
wrote. -/
theorem init_resets_configXML (st : Project) (pd : ProjectData)
    (file url repoUrl xmlText remoteXml : String) :
    (st.init pd).configXML = none ∧
    (Project.construct pd).configXML = none ∧
    (st.refresh pd).configXML = none ∧
    (st.updateZip file pd).configXML = none ∧
    (st.updateURL url pd).configXML = none ∧
    (st.updateRepository repoUrl pd).configXML = none ∧
    ((st.refresh pd).getConfigXML remoteXml).1 = XMLSugar.mk remoteXml ∧
    ((st.refresh pd).getConfigXML remoteXml).2.configXML =
      some (XMLSugar.mk remoteXml) ∧
    (st.updateConfigXml xmlText pd).configXML =
      some (XMLSugar.mk xmlText) :=
  ⟨rfl, rfl, rfl, rfl, rfl, rfl, rfl, rfl, rfl⟩

/-- Claim C2: refreshUntilCompleted raises the timeout error exactly when
its polling loop exits at a clock still strictly below the computed deadline
now + maxWaitTime; when the loop exits with the deadline already passed it
resolves without error (returning the final instance and clock). -/
theorem refreshUntilCompleted_timeout_iff (st : Project)
    (snaps : Nat → ProjectData) (now interval maxWaitTime fuel : Nat)
    (p : Project) (t : Nat)
    (h : pollLoop snaps interval (now + maxWaitTime) fuel
      (st.refresh (snaps 0)) now 1 = some (p, t)) :
    (st.refreshUntilCompleted snaps now interval maxWaitTime fuel =
        some (Except.error timeoutMsg) ↔ t < now + maxWaitTime) ∧
    (¬ t < now + maxWaitTime →
      st.refreshUntilCompleted snaps now interval maxWaitTime fuel =
        some (Except.ok (p, t))) := by
  unfold Project.refreshUntilCompleted
  rw [h]
  by_cases hlt : t < now + maxWaitTime <;> simp [hlt]

/-- Witness for C2 at a concrete run: one Waiting Android compilation that
never completes, now = 0, interval = 10, maxWaitTime = 25. The loop runs
past the deadline (exit clock 30) and the call resolves without error even
though the project is still compiling: the paradoxical branch the claim
describes. -/
theorem refreshUntilCompleted_timeout_iff_witness :
    (Project.construct pdW).refreshUntilCompleted (fun _ => pdW) 0 10 25 5 =
      some (Except.ok (Project.blank.init pdW, 30)) :=
  (refreshUntilCompleted_timeout_iff (Project.construct pdW) (fun _ => pdW)
    0 10 25 5 (Project.blank.init pdW) 30 rfl).2 (by decide)
